import Mathlib

/-!
Shallow embedding of the weather-proxy service in `api.py`.

The service exposes one endpoint, POST /getCurrentWeather, taking a body
with fields `city` and `output_format`.  It validates the parameters
(pydantic validators on the `cityParameters` model), fetches current
weather from the upstream weather API through a `requests` session whose
HTTPAdapter is configured with `Retry(total=5, status_forcelist=[500, 503,
504], backoff_factor=2)`, and reformats the upstream payload as JSON or
XML (`construct_response`).

Modelling conventions:
  * JSON scalar values are carried together with their Python `str`
    rendering (`JVal.jnum` holds the decimal rendering of a number); the
    service never computes with the numbers, it only copies them or
    stringifies them, so this is exact.
  * An absent dictionary key / absent XML element is `Option.none`;
    a Python `KeyError` or `AttributeError` aborts the surrounding
    statement sequence exactly as in the source.
  * The urllib3 `Retry(total=5, ...)` object allows five retries after
    the initial request, i.e. up to six outbound attempts in total;
    exhaustion surfaces as a `RetryError` from `session.get`, which is
    uncaught in `get_data_from_weather_api` and is turned into a plain
    500 "Internal Server Error" by the framework middleware, the same
    status and message as the `HTTPException` raised for a non-retryable
    error status.  `sessionFetch` returns the number of attempts made
    together with the final status (`none` = retries exhausted).
  * A missing required body field makes the framework reject the request
    with status 422 before the handler runs; an `HTTPException` raised
    inside a field validator propagates and is rendered with its own
    status (400 here).  Field validators run in declaration order:
    `city` first, then `output_format`.
-/

set_option maxRecDepth 10000

namespace WeatherProxy

/-- Python `str.lower()` on the character list of the string (ASCII
case folding, which is all the validator and the city comparison
need). -/
def pyLower (s : String) : String :=
  ⟨s.data.map Char.toLower⟩

/-- A JSON scalar as it appears in the upstream payload: either a string
or a number carried by its Python decimal rendering. -/
inductive JVal where
  | jstr (s : String)
  | jnum (render : String)
deriving Repr, DecidableEq

/-- Python `str()` applied to a JSON scalar. -/
def pyStr : JVal → String
  | .jstr s => s
  | .jnum r => r

/-- The `current` object of the upstream JSON payload; `temp_c` may be
absent (lookup then raises `KeyError`). -/
structure JCurrent where
  temp_c : Option JVal
deriving Repr, DecidableEq

/-- The `location` object of the upstream JSON payload. -/
structure JLocation where
  lat : Option JVal
  lon : Option JVal
  name : Option JVal
  country : Option JVal
deriving Repr, DecidableEq

/-- The upstream JSON payload, i.e. the result of `response.json()`. -/
structure JBody where
  current : Option JCurrent
  location : Option JLocation
deriving Repr, DecidableEq

/-- The flat JSON object built by the json branch of
`construct_response`: keys Weather, Latitude, Longitude, City in this
order (api.py lines 72 to 75). -/
structure JsonOutput where
  Weather : JVal
  Latitude : JVal
  Longitude : JVal
  City : JVal
deriving Repr, DecidableEq

/-- The dictionary initialiser of api.py lines 72 to 75: every field an
empty string except City, which starts as the requested city. -/
def jsonInit (city : String) : JsonOutput :=
  { Weather := .jstr "", Latitude := .jstr "", Longitude := .jstr "",
    City := .jstr city }

/-- The try block of api.py lines 77 to 84: the four assignments run in
order (Weather, Latitude, Longitude, City); the first missing key raises
`KeyError`, which aborts the remaining assignments and is swallowed.
For the City line, `location.name` is read before `location.country`. -/
def jsonExtract (city : String) (p : JBody) : JsonOutput :=
  let o0 := jsonInit city
  match p.current with
  | none => o0
  | some cur =>
    match cur.temp_c with
    | none => o0
    | some t =>
      let o1 := { o0 with Weather := .jstr (pyStr t ++ " C") }
      match p.location with
      | none => o1
      | some loc =>
        match loc.lat with
        | none => o1
        | some la =>
          let o2 := { o1 with Latitude := la }
          match loc.lon with
          | none => o2
          | some lo =>
            let o3 := { o2 with Longitude := lo }
            match loc.name with
            | none => o3
            | some n =>
              match loc.country with
              | none => o3
              | some c =>
                { o3 with City := .jstr (pyStr n ++ " " ++ pyStr c) }

/-- The json branch of `construct_response` (api.py lines 69 to 85):
extraction happens only when the upstream status is 200, and the
`JSONResponse` is always sent with status 200. -/
def construct_response_json (city : String) (status_code : Nat)
    (body : JBody) : Nat × JsonOutput :=
  if status_code = 200 then (200, jsonExtract city body)
  else (200, jsonInit city)

/-- An XML element of the upstream document, reduced to its text, which
Python's ElementTree reports as `None` for an empty element. -/
structure XElem where
  text : Option String
deriving Repr, DecidableEq

/-- The children of the upstream `location` element that the code reads
with `find`; `none` means `find` returns `None`. -/
structure XLocation where
  name : Option XElem
  lat : Option XElem
  lon : Option XElem
deriving Repr, DecidableEq

/-- The child of the upstream `current` element that the code reads. -/
structure XCurrent where
  temp_c : Option XElem
deriving Repr, DecidableEq

/-- The upstream XML document, i.e. the result of
`ET.fromstring(response.text)`. -/
structure XBody where
  location : Option XLocation
  current : Option XCurrent
deriving Repr, DecidableEq

/-- Python `str()` applied to an element text that may be `None`. -/
def pyStrText : Option String → String
  | none => "None"
  | some s => s

/-- The output XML document of the xml branch: root element `root` with
sub-elements Temperature, City, Latitude, Longitude created in this
order (api.py lines 89 to 93); each field holds the element text, where
`none` means the text attribute was never assigned (City is the only
field not initialised to the empty string, api.py lines 94 to 96). -/
structure XmlOutput where
  Temperature : Option String
  City : Option String
  Latitude : Option String
  Longitude : Option String
deriving Repr, DecidableEq

/-- Serialised text content of an element: an element whose text is
`None` serialises as an empty element, with empty text content. -/
def textContent : Option String → String
  | none => ""
  | some s => s

/-- The children of the serialised output document, in document order,
as pairs of tag and text content. -/
def xmlChildren (o : XmlOutput) : List (String × String) :=
  [("Temperature", textContent o.Temperature),
   ("City", textContent o.City),
   ("Latitude", textContent o.Latitude),
   ("Longitude", textContent o.Longitude)]

/-- The xml branch of `construct_response` (api.py lines 86 to 110).
Line 97 evaluates `xml_response.find("location").find("name").text.lower()`
outside the try block: a missing `location` element, a missing `name`
child or a `None` name text raises `AttributeError` there, and that
exception propagates to the caller (`Except.error`).  Inside the try
block the assignments run in source order: City (line 99), Temperature
(line 101), Longitude (line 103), Latitude (line 105); an
`AttributeError` from a missing element aborts the rest and is
swallowed.  The response is always sent with status 200. -/
def construct_response_xml (city : String) (b : XBody) :
    Except String (Nat × XmlOutput) :=
  match b.location with
  | none => .error "AttributeError"
  | some loc =>
    match loc.name with
    | none => .error "AttributeError"
    | some nameEl =>
      match nameEl.text with
      | none => .error "AttributeError"
      | some nm =>
        let base : XmlOutput :=
          { Temperature := some "", City := none,
            Latitude := some "", Longitude := some "" }
        if pyLower nm = pyLower city then
          let o1 := { base with City := some nm }
          match b.current with
          | none => .ok (200, o1)
          | some cur =>
            match cur.temp_c with
            | none => .ok (200, o1)
            | some tEl =>
              let o2 := { o1 with
                Temperature := some (pyStrText tEl.text ++ " C") }
              match loc.lon with
              | none => .ok (200, o2)
              | some lonEl =>
                let o3 := { o2 with
                  Longitude := some (pyStrText lonEl.text) }
                match loc.lat with
                | none => .ok (200, o3)
                | some latEl =>
                  .ok (200, { o3 with
                    Latitude := some (pyStrText latEl.text) })
        else
          .ok (200, base)

/-- Statuses eligible for retry (api.py line 15, `status_forcelist`). -/
def status_forcelist : List Nat := [500, 503, 504]

/-- Number of retries allowed after the initial attempt
(api.py line 15, `Retry(total=5, ...)`). -/
def retry_total : Nat := 5

/-- Backoff multiplier between attempts (api.py line 16). -/
def backoff_factor : Nat := 2

/-- One `session.get` through the adapter with the configured
`Retry`: `total` is the remaining retry budget, `attempt` the index of
the attempt being made.  A response whose status is in the forcelist
consumes one retry; when the budget is exhausted urllib3 raises
`MaxRetryError`, surfaced by requests as `RetryError` (`none` here).
Returns the number of attempts actually made and the final status. -/
def sessionFetch (upstream : Nat → Nat) : Nat → Nat → Nat × Option Nat
  | 0, attempt =>
    if upstream attempt ∈ status_forcelist then (attempt + 1, none)
    else (attempt + 1, some (upstream attempt))
  | t + 1, attempt =>
    if upstream attempt ∈ status_forcelist then sessionFetch upstream t (attempt + 1)
    else (attempt + 1, some (upstream attempt))

/-- Upstream behaviour for one request: the status answered on each
attempt (0-indexed), and the payload bodies of the final response, as
seen through `response.json()` and `ET.fromstring(response.text)`. -/
structure UpstreamEnv where
  statuses : Nat → Nat
  jsonBody : JBody
  xmlBody : XBody

/-- The incoming request body: a missing field is `none`. -/
structure Request where
  city : Option String
  output_format : Option String
deriving Repr, DecidableEq

/-- Detail message of the HTTPException of api.py line 44. -/
def emptyCityMsg : String := "The city string is empty"

/-- Detail message of the HTTPException of api.py lines 52 to 54, built
from the already lowercased format value; rendered with the set literal
of line 50. -/
def invalidFormatMsg (fl : String) : String :=
  "Invalid output format: '" ++ fl ++
    "'. Only allowed formats are \x7b'json', 'xml'\x7d"

/-- Message of the framework's 422 response for a missing required
body field. -/
def fieldRequiredMsg : String := "field required"

/-- Detail of api.py line 133 and of the framework's plain 500 answer
for an unhandled exception. -/
def internalServerError : String := "Internal Server Error"

/-- Validation of the request body against `cityParameters` (api.py
lines 27 to 55).  Fields are processed in declaration order.  A missing
field is recorded and reported as a 422 after all fields are processed;
an `HTTPException` raised by a validator propagates immediately.  The
`city` validator rejects the empty string with a 400; the
`output_format` validator lowercases the value, rejects anything
outside json and xml with a 400, and returns the lowercased value. -/
def validate (req : Request) : Except (Nat × String) (String × String) :=
  match req.city with
  | some c =>
    if c = "" then .error (400, emptyCityMsg)
    else
      match req.output_format with
      | some f =>
        let fl := pyLower f
        if fl = "json" ∨ fl = "xml" then .ok (c, fl)
        else .error (400, invalidFormatMsg fl)
      | none => .error (422, fieldRequiredMsg)
  | none =>
    match req.output_format with
    | some f =>
      let fl := pyLower f
      if fl = "json" ∨ fl = "xml" then .error (422, fieldRequiredMsg)
      else .error (400, invalidFormatMsg fl)
    | none => .error (422, fieldRequiredMsg)

/-- Outcome of a request, as seen by the client: a JSON body, an XML
body, or an error response carrying a status and a detail message. -/
inductive Outcome where
  | jsonOut (status : Nat) (body : JsonOutput)
  | xmlOut (status : Nat) (body : XmlOutput)
  | errorOut (status : Nat) (detail : String)
deriving Repr, DecidableEq

/-- `get_data_from_weather_api` (api.py lines 113 to 136) together with
the framework's exception rendering, for an already validated pair of
city and lowercased output format.  `raise_for_status` raises
`HTTPError` for any final status in 400 to 599, answered as
HTTPException 500 "Internal Server Error"; an exhausted retry budget
(RetryError) and an `AttributeError` escaping the xml formatter are
unhandled exceptions, answered as a plain 500 "Internal Server Error".
Returns the outcome and the number of outbound attempts made. -/
def get_data_from_weather_api (city output_format : String)
    (env : UpstreamEnv) : Outcome × Nat :=
  let fetch := sessionFetch env.statuses retry_total 0
  match fetch.2 with
  | none => (.errorOut 500 internalServerError, fetch.1)
  | some st =>
    if 400 ≤ st ∧ st ≤ 599 then
      (.errorOut 500 internalServerError, fetch.1)
    else
      if output_format = "json" then
        let r := construct_response_json city st env.jsonBody
        (.jsonOut r.1 r.2, fetch.1)
      else
        match construct_response_xml city env.xmlBody with
        | .error _ => (.errorOut 500 internalServerError, fetch.1)
        | .ok r => (.xmlOut r.1 r.2, fetch.1)

/-- The whole endpoint `get_weather_data_for_city` (api.py lines 139 to
150): validation first (a failure answers immediately, with no outbound
call), then the upstream fetch and response construction.  Returns the
outcome and the number of outbound attempts made. -/
def service (req : Request) (env : UpstreamEnv) : Outcome × Nat :=
  match validate req with
  | .error e => (.errorOut e.1 e.2, 0)
  | .ok v => get_data_from_weather_api v.1 v.2 env

/-- Upstream JSON lookup of current.temp_c, as a composite. -/
def lookupTemp (p : JBody) : Option JVal :=
  p.current.bind fun c => c.temp_c

/-- Upstream JSON lookup of location.lat, as a composite. -/
def lookupLat (p : JBody) : Option JVal :=
  p.location.bind fun l => l.lat

/-- Upstream JSON lookup of location.lon, as a composite. -/
def lookupLon (p : JBody) : Option JVal :=
  p.location.bind fun l => l.lon

/-- Upstream JSON lookup of the pair location.name, location.country in
evaluation order, as a composite. -/
def lookupNameCountry (p : JBody) : Option (JVal × JVal) :=
  p.location.bind fun l => l.name.bind fun n => l.country.map fun c => (n, c)

/-- Upstream XML lookup of current/temp_c, as a composite. -/
def lookupTempX (b : XBody) : Option XElem :=
  b.current.bind fun c => c.temp_c

/-- Tag of the root element of the output XML document (api.py line 89). -/
def rootTag : String := "root"

/-- The serialised output XML document: root tag together with the leaf
children in document order. -/
def xmlDocument (o : XmlOutput) : String × List (String × String) :=
  (rootTag, xmlChildren o)

/-- The fields of the output built for a city-name mismatch: only the
three fields initialised on api.py lines 94 to 96 carry (empty) text;
City was never assigned, so it serialises as an empty element. -/
def mismatchOut : XmlOutput :=
  { Temperature := some "", City := none,
    Latitude := some "", Longitude := some "" }

/-! Concrete inputs used by witnesses and counterexamples. -/

/-- The upstream JSON payload of the Paris example in the spec. -/
def parisJ : JBody :=
  { current := some { temp_c := some (.jnum "21") },
    location := some { lat := some (.jnum "1.0"), lon := some (.jnum "2.0"),
                       name := some (.jstr "Paris"),
                       country := some (.jstr "France") } }

/-- The Paris payload with the location.name key removed. -/
def missingNameJ : JBody :=
  { current := some { temp_c := some (.jnum "21") },
    location := some { lat := some (.jnum "1.0"), lon := some (.jnum "2.0"),
                       name := none,
                       country := some (.jstr "France") } }

/-- The Paris payload with the current.temp_c key removed. -/
def missingTempJ : JBody :=
  { current := some { temp_c := none },
    location := some { lat := some (.jnum "1.0"), lon := some (.jnum "2.0"),
                       name := some (.jstr "Paris"),
                       country := some (.jstr "France") } }

/-- An upstream JSON payload with neither object present. -/
def emptyJ : JBody := { current := none, location := none }

/-- An upstream XML document with neither element present. -/
def emptyX : XBody := { location := none, current := none }

/-- The upstream XML document of the Paris example in the spec. -/
def parisX : XBody :=
  { location := some { name := some { text := some "Paris" },
                       lat := some { text := some "1.0" },
                       lon := some { text := some "2.0" } },
    current := some { temp_c := some { text := some "21" } } }

/-- An upstream XML document without a location element. -/
def noLocX : XBody :=
  { location := none, current := some { temp_c := some { text := some "21" } } }

/-- An upstream that always answers 200, with the Paris payloads. -/
def envParis : UpstreamEnv :=
  { statuses := fun _ => 200, jsonBody := parisJ, xmlBody := parisX }

/-- An upstream that always answers 200 with the location.name key
missing from the JSON payload. -/
def envMissingName : UpstreamEnv :=
  { statuses := fun _ => 200, jsonBody := missingNameJ, xmlBody := parisX }

/-- An upstream that always answers 200 with the current.temp_c key
missing from the JSON payload. -/
def envMissingTemp : UpstreamEnv :=
  { statuses := fun _ => 200, jsonBody := missingTempJ, xmlBody := parisX }

/-- An upstream that always answers 200 with no location element in the
XML document. -/
def envNoLocX : UpstreamEnv :=
  { statuses := fun _ => 200, jsonBody := parisJ, xmlBody := noLocX }

/-- An upstream that always answers 503. -/
def env503 : UpstreamEnv :=
  { statuses := fun _ => 503, jsonBody := parisJ, xmlBody := parisX }

/-- An upstream that always answers 404. -/
def env404 : UpstreamEnv :=
  { statuses := fun _ => 404, jsonBody := parisJ, xmlBody := parisX }

/-! Helper lemmas shared by several claims. -/

/-- A string built around a space separator is never empty. -/
theorem append_space_ne_empty (a b : String) : a ++ " " ++ b ≠ "" := by
  intro h
  have hl := congrArg String.length h
  simp [String.length_append] at hl
  exact absurd hl.1.2 (by decide)

/-- Validation succeeds on a non-empty city and a format whose
lowercasing is json or xml, returning the lowercased format. -/
theorem validate_ok (city f : String) (hcity : city ≠ "")
    (hf : pyLower f = "json" ∨ pyLower f = "xml") :
    validate { city := some city, output_format := some f } =
      .ok (city, pyLower f) := by
  unfold validate
  simp [hcity, hf]

/-- On a validated request, the service runs
`get_data_from_weather_api` on the lowercased format. -/
theorem service_valid (city f : String) (env : UpstreamEnv)
    (hcity : city ≠ "") (hf : pyLower f = "json" ∨ pyLower f = "xml") :
    service { city := some city, output_format := some f } env =
      get_data_from_weather_api city (pyLower f) env := by
  unfold service
  rw [validate_ok city f hcity hf]

/-- A first status outside the forcelist ends the fetch after exactly
one attempt, with that status. -/
theorem sessionFetch_no_retry (u : Nat → Nat) (total attempt : Nat)
    (h : u attempt ∉ status_forcelist) :
    sessionFetch u total attempt = (attempt + 1, some (u attempt)) := by
  cases total <;> simp [sessionFetch, h]

/-- The number of attempts made never exceeds the retry budget plus
one (plus the attempts already counted). -/
theorem sessionFetch_count_le (u : Nat → Nat) (total attempt : Nat) :
    (sessionFetch u total attempt).1 ≤ attempt + total + 1 := by
  induction total generalizing attempt with
  | zero =>
    unfold sessionFetch
    split <;> simp
  | succ t ih =>
    unfold sessionFetch
    split
    · exact le_trans (ih (attempt + 1)) (by omega)
    · simp

/-- An upstream answering 503 on every attempt exhausts the whole
budget: one attempt per unit of budget plus the initial one, and no
final response. -/
theorem sessionFetch_all_503 (u : Nat → Nat) (h : ∀ i, u i = 503)
    (total attempt : Nat) :
    sessionFetch u total attempt = (attempt + total + 1, none) := by
  induction total generalizing attempt with
  | zero => simp [sessionFetch, h, status_forcelist]
  | succ t ih =>
    have := ih (attempt + 1)
    simp [sessionFetch, h, status_forcelist, this]
    omega

/-- In every branch, the attempt count reported by
`get_data_from_weather_api` is the one of the fetch. -/
theorem get_data_calls (city f : String) (env : UpstreamEnv) :
    (get_data_from_weather_api city f env).2 =
      (sessionFetch env.statuses retry_total 0).1 := by
  unfold get_data_from_weather_api
  cases h : (sessionFetch env.statuses retry_total 0).2 with
  | none => simp [h]
  | some st =>
    simp only [h]
    split
    · rfl
    · split
      · rfl
      · split <;> rfl

/-- On a validated request whose first upstream status is 200, the json
path answers 200 with the extracted fields after one attempt. -/
theorem service_json_200 (city : String) (env : UpstreamEnv)
    (hcity : city ≠ "") (hst : env.statuses 0 = 200) :
    service { city := some city, output_format := some "json" } env =
      (.jsonOut 200 (jsonExtract city env.jsonBody), 1) := by
  rw [service_valid city "json" env hcity (Or.inl rfl)]
  rw [show pyLower "json" = "json" from rfl]
  unfold get_data_from_weather_api
  have hfetch : sessionFetch env.statuses retry_total 0 = (1, some 200) := by
    have := sessionFetch_no_retry env.statuses retry_total 0
      (by simp [hst, status_forcelist])
    simpa [hst] using this
  rw [hfetch]
  simp [construct_response_json]

/-- On a validated request whose first upstream status is 200, the xml
path answers from the formatter after one attempt: a 500 when the
formatter raises, its document otherwise. -/
theorem service_xml_200 (city : String) (env : UpstreamEnv)
    (hcity : city ≠ "") (hst : env.statuses 0 = 200) :
    service { city := some city, output_format := some "xml" } env =
      (match construct_response_xml city env.xmlBody with
       | .error _ => (.errorOut 500 internalServerError, 1)
       | .ok r => (.xmlOut r.1 r.2, 1)) := by
  rw [service_valid city "xml" env hcity (Or.inr rfl)]
  rw [show pyLower "xml" = "xml" from rfl]
  unfold get_data_from_weather_api
  have hfetch : sessionFetch env.statuses retry_total 0 = (1, some 200) := by
    have := sessionFetch_no_retry env.statuses retry_total 0
      (by simp [hst, status_forcelist])
    simpa [hst] using this
  rw [hfetch]
  have h1 : ¬ ((400 : Nat) ≤ 200 ∧ (200 : Nat) ≤ 599) := by omega
  simp only [h1, if_false, reduceCtorEq]
  have h2 : ("xml" : String) ≠ "json" := by decide
  simp [h2]

/-! Claim theorems. -/

/-- C1: for every upstream response with status 200 whose JSON body
contains current.temp_c, location.lat, location.lon, location.name and
location.country, a request with output_format json answers 200 with
the flat object whose keys are Weather, Latitude, Longitude, City;
Weather is str of temp_c followed by the literal suffix " C", Latitude
and Longitude are the raw upstream values, and City is name, a space
and country. -/
theorem C1_json_success (city : String) (env : UpstreamEnv)
    (t la lo n c : JVal)
    (hcity : city ≠ "")
    (hst : env.statuses 0 = 200)
    (hcur : env.jsonBody.current = some { temp_c := some t })
    (hloc : env.jsonBody.location =
      some { lat := some la, lon := some lo, name := some n,
             country := some c }) :
    service { city := some city, output_format := some "json" } env =
      (.jsonOut 200
        { Weather := .jstr (pyStr t ++ " C"), Latitude := la, Longitude := lo,
          City := .jstr (pyStr n ++ " " ++ pyStr c) }, 1) := by
  rw [service_json_200 city env hcity hst]
  simp [jsonExtract, hcur, hloc]

/-- C1 witness: the Paris example of the spec. -/
theorem C1_witness :
    ("Paris" : String) ≠ "" ∧ envParis.statuses 0 = 200 ∧
    envParis.jsonBody.current = some { temp_c := some (.jnum "21") } ∧
    envParis.jsonBody.location =
      some { lat := some (.jnum "1.0"), lon := some (.jnum "2.0"),
             name := some (.jstr "Paris"), country := some (.jstr "France") } ∧
    service { city := some "Paris", output_format := some "json" } envParis =
      (.jsonOut 200
        { Weather := .jstr "21 C", Latitude := .jnum "1.0",
          Longitude := .jnum "2.0", City := .jstr "Paris France" }, 1) :=
  ⟨by decide, rfl, rfl, rfl,
   C1_json_success "Paris" envParis (.jnum "21") (.jnum "1.0") (.jnum "2.0")
     (.jstr "Paris") (.jstr "France") (by decide) rfl rfl rfl⟩

/-- C2: for every upstream response with status 200 whose XML body has
a location/name text equal to the requested city up to case and
contains current/temp_c, location/lat and location/lon, a request with
output_format xml answers 200 with a document whose root is the `root`
element and whose children are exactly the leaf text elements
Temperature (temp_c text followed by " C"), City (the name text),
Latitude (the lat text) and Longitude (the lon text). -/
theorem C2_xml_success (city nm t la lo : String) (env : UpstreamEnv)
    (hcity : city ≠ "")
    (hst : env.statuses 0 = 200)
    (hx : env.xmlBody =
      { location := some { name := some { text := some nm },
                           lat := some { text := some la },
                           lon := some { text := some lo } },
        current := some { temp_c := some { text := some t } } })
    (hmatch : pyLower nm = pyLower city) :
    service { city := some city, output_format := some "xml" } env =
      (.xmlOut 200
        { Temperature := some (t ++ " C"), City := some nm,
          Latitude := some la, Longitude := some lo }, 1) ∧
    xmlDocument
        { Temperature := some (t ++ " C"), City := some nm,
          Latitude := some la, Longitude := some lo } =
      ("root", [("Temperature", t ++ " C"), ("City", nm),
                ("Latitude", la), ("Longitude", lo)]) := by
  constructor
  · rw [service_xml_200 city env hcity hst]
    simp [construct_response_xml, hx, hmatch, pyStrText]
  · simp [xmlDocument, xmlChildren, rootTag, textContent]

/-- C2 witness: the Paris example of the spec, xml variant. -/
theorem C2_witness :
    ("Paris" : String) ≠ "" ∧ envParis.statuses 0 = 200 ∧
    envParis.xmlBody =
      { location := some { name := some { text := some "Paris" },
                           lat := some { text := some "1.0" },
                           lon := some { text := some "2.0" } },
        current := some { temp_c := some { text := some "21" } } } ∧
    pyLower "Paris" = pyLower "Paris" ∧
    service { city := some "Paris", output_format := some "xml" } envParis =
      (.xmlOut 200
        { Temperature := some "21 C", City := some "Paris",
          Latitude := some "1.0", Longitude := some "2.0" }, 1) :=
  ⟨by decide, rfl, rfl, rfl,
   (C2_xml_success "Paris" "Paris" "21" "1.0" "2.0" envParis
     (by decide) rfl rfl rfl).1⟩

/-- C5: every upstream interaction that ends in an HTTP-level failure,
namely an exhausted retry budget or a final status in the 400 to 599
range, is answered with status 500 and the generic message
"Internal Server Error", whatever the upstream status was. -/
theorem C5_upstream_failure (city f : String) (env : UpstreamEnv)
    (hcity : city ≠ "")
    (hf : pyLower f = "json" ∨ pyLower f = "xml")
    (hfail : (sessionFetch env.statuses retry_total 0).2 = none ∨
      ∃ st, (sessionFetch env.statuses retry_total 0).2 = some st ∧
        400 ≤ st ∧ st ≤ 599) :
    service { city := some city, output_format := some f } env =
      (.errorOut 500 internalServerError,
       (sessionFetch env.statuses retry_total 0).1) := by
  rw [service_valid city f env hcity hf]
  unfold get_data_from_weather_api
  dsimp only
  rcases hfail with h | ⟨st, h, h4, h5⟩
  · rw [h]
  · rw [h]
    dsimp only
    rw [if_pos ⟨h4, h5⟩]

/-- C5 witness: an upstream answering 404 on the first attempt. -/
theorem C5_witness :
    ("Paris" : String) ≠ "" ∧ pyLower "json" = "json" ∧
    (sessionFetch env404.statuses retry_total 0).2 = some 404 ∧
    service { city := some "Paris", output_format := some "json" } env404 =
      (.errorOut 500 internalServerError, 1) :=
  ⟨by decide, rfl, rfl,
   C5_upstream_failure "Paris" "json" env404 (by decide) (Or.inl rfl)
     (Or.inr ⟨404, rfl, by decide, by decide⟩)⟩

/-- C9: the validator lowercases output_format before any downstream
use, so two requests whose output_format values agree after
lowercasing behave identically, for every city field and every
upstream behaviour. -/
theorem C9_format_case_insensitive (c : Option String) (env : UpstreamEnv)
    (f g : String) (h : pyLower f = pyLower g) :
    service { city := c, output_format := some f } env =
      service { city := c, output_format := some g } env := by
  unfold service validate
  cases c with
  | none => simp only [h]
  | some cc => by_cases hcc : cc = "" <;> simp only [hcc, h]

/-- C9 witness: output_format JSON in upper case behaves as json. -/
theorem C9_witness :
    pyLower "JSON" = pyLower "json" ∧
    service { city := some "Paris", output_format := some "JSON" } envParis =
      service { city := some "Paris", output_format := some "json" } envParis :=
  ⟨rfl, C9_format_case_insensitive (some "Paris") envParis "JSON" "json" rfl⟩

/-- C3 counterexample: with location.name missing from an otherwise
complete upstream payload, the output field corresponding to the
missing field (City) is the requested city "Paris", not the empty
string, while the request still answers 200. -/
theorem C3_counterexample :
    service { city := some "Paris", output_format := some "json" }
        envMissingName =
      (.jsonOut 200
        { Weather := .jstr "21 C", Latitude := .jnum "1.0",
          Longitude := .jnum "2.0", City := .jstr "Paris" }, 1) ∧
    JVal.jstr "Paris" ≠ JVal.jstr "" :=
  ⟨rfl, by decide⟩

/-- C3 amended: on an upstream 200 JSON payload the request always
answers 200 with the extracted fields; a missing current.temp_c leaves
Weather as the empty string, a missing location.lat leaves Latitude as
the empty string, a missing location.lon leaves Longitude as the empty
string, and a missing location.name or location.country leaves City at
its default, which is the originally requested city rather than the
empty string.  The formatting failure is never propagated. -/
theorem C3_missing_fields (city : String) (env : UpstreamEnv)
    (hcity : city ≠ "") (hst : env.statuses 0 = 200) :
    service { city := some city, output_format := some "json" } env =
      (.jsonOut 200 (jsonExtract city env.jsonBody), 1) ∧
    (lookupTemp env.jsonBody = none →
      (jsonExtract city env.jsonBody).Weather = .jstr "") ∧
    (lookupLat env.jsonBody = none →
      (jsonExtract city env.jsonBody).Latitude = .jstr "") ∧
    (lookupLon env.jsonBody = none →
      (jsonExtract city env.jsonBody).Longitude = .jstr "") ∧
    (lookupNameCountry env.jsonBody = none →
      (jsonExtract city env.jsonBody).City = .jstr city) := by
  refine ⟨service_json_200 city env hcity hst, ?_, ?_, ?_, ?_⟩ <;>
    rcases env.jsonBody with ⟨_ | ⟨_ | t⟩, _ | ⟨_ | la, _ | lo, _ | n, _ | c⟩⟩ <;>
      simp [jsonExtract, jsonInit, lookupTemp, lookupLat, lookupLon,
        lookupNameCountry]

/-- C3 witness: the spec scenario, current.temp_c missing. -/
theorem C3_witness :
    ("Paris" : String) ≠ "" ∧ envMissingTemp.statuses 0 = 200 ∧
    lookupTemp envMissingTemp.jsonBody = none ∧
    service { city := some "Paris", output_format := some "json" }
        envMissingTemp =
      (.jsonOut 200 (jsonExtract "Paris" envMissingTemp.jsonBody), 1) ∧
    (jsonExtract "Paris" envMissingTemp.jsonBody).Weather = .jstr "" :=
  ⟨by decide, rfl, rfl,
   (C3_missing_fields "Paris" envMissingTemp (by decide) rfl).1,
   (C3_missing_fields "Paris" envMissingTemp (by decide) rfl).2.1 rfl⟩

/-- C10: in the json path the City field is never empty: when the
payload is fully extracted it is name, a space and country, and on any
extraction failure it stays at its initial value, the requested city.
A missing key aborts the extraction sequence Weather, Latitude,
Longitude, City, so every field after the first missing one keeps its
default even when its own upstream field is present. -/
theorem C10_city_preserved (city : String) (p : JBody) (hcity : city ≠ "") :
    (jsonExtract city p).City ≠ .jstr "" ∧
    (lookupTemp p = none → jsonExtract city p = jsonInit city) ∧
    (∀ t, lookupTemp p = some t → lookupLat p = none →
      jsonExtract city p =
        { jsonInit city with Weather := .jstr (pyStr t ++ " C") }) ∧
    (∀ t la, lookupTemp p = some t → lookupLat p = some la →
      lookupLon p = none →
      jsonExtract city p =
        { jsonInit city with
          Weather := .jstr (pyStr t ++ " C"),
          Latitude := la }) ∧
    (∀ t la lo, lookupTemp p = some t → lookupLat p = some la →
      lookupLon p = some lo → lookupNameCountry p = none →
      jsonExtract city p =
        { jsonInit city with
          Weather := .jstr (pyStr t ++ " C"),
          Latitude := la,
          Longitude := lo }) := by
  refine ⟨?_, ?_, ?_, ?_, ?_⟩ <;>
    rcases p with ⟨_ | ⟨_ | t⟩, _ | ⟨_ | la, _ | lo, _ | n, _ | c⟩⟩ <;>
      simp [jsonExtract, jsonInit, lookupTemp, lookupLat, lookupLon,
        lookupNameCountry, hcity, append_space_ne_empty]

/-- C10 witness: City survives as the requested city on the payload
missing location.name, and the full-abort shape holds on the payload
missing current.temp_c. -/
theorem C10_witness :
    ("Paris" : String) ≠ "" ∧
    (jsonExtract "Paris" missingNameJ).City ≠ .jstr "" ∧
    lookupTemp missingTempJ = none ∧
    jsonExtract "Paris" missingTempJ = jsonInit "Paris" :=
  ⟨by decide,
   (C10_city_preserved "Paris" missingNameJ (by decide)).1,
   rfl,
   (C10_city_preserved "Paris" missingTempJ (by decide)).2.1 rfl⟩

/-- C6 counterexample: with an upstream answering 503 on every attempt,
the fetch makes six outbound attempts, so a sixth call is attempted,
and only then does the service answer 500. -/
theorem C6_counterexample :
    sessionFetch (fun _ => 503) retry_total 0 = (6, none) ∧
    service { city := some "Paris", output_format := some "json" } env503 =
      (.errorOut 500 internalServerError, 6) :=
  ⟨rfl, rfl⟩

/-- C6 amended: the outbound fetch makes at most 6 attempts in total
(1 initial plus the retry budget of 5); a first status outside the
forcelist 500, 503, 504 ends the fetch after a single attempt; and an
upstream answering 503 on every attempt is answered 500 after exactly
six outbound attempts. -/
theorem C6_retry_budget (city f : String) (env : UpstreamEnv)
    (hcity : city ≠ "") (hf : pyLower f = "json" ∨ pyLower f = "xml") :
    (service { city := some city, output_format := some f } env).2 ≤
      retry_total + 1 ∧
    (env.statuses 0 ∉ status_forcelist →
      (service { city := some city, output_format := some f } env).2 = 1) ∧
    ((∀ i, env.statuses i = 503) →
      service { city := some city, output_format := some f } env =
        (.errorOut 500 internalServerError, 6)) := by
  rw [service_valid city f env hcity hf]
  refine ⟨?_, ?_, ?_⟩
  · rw [get_data_calls]
    simpa using sessionFetch_count_le env.statuses retry_total 0
  · intro h
    rw [get_data_calls]
    rw [sessionFetch_no_retry env.statuses retry_total 0 h]
  · intro h
    unfold get_data_from_weather_api
    rw [sessionFetch_all_503 env.statuses h retry_total 0]
    rfl

/-- C6 witness: a non-retryable first status gives one attempt, and
constant 503 gives six attempts then a 500. -/
theorem C6_witness :
    ("Paris" : String) ≠ "" ∧ pyLower "json" = "json" ∧
    (service { city := some "Paris", output_format := some "json" }
        envParis).2 = 1 ∧
    service { city := some "Paris", output_format := some "json" } env503 =
      (.errorOut 500 internalServerError, 6) :=
  ⟨by decide, rfl,
   (C6_retry_budget "Paris" "json" envParis (by decide) (Or.inl rfl)).2.1
     (by decide),
   (C6_retry_budget "Paris" "json" env503 (by decide) (Or.inl rfl)).2.2
     (fun _ => rfl)⟩

/-- C7 counterexample: a request with the city field absent and a valid
output_format is rejected by the framework with status 422, not 400. -/
theorem C7_counterexample :
    service { city := none, output_format := some "json" } envParis =
      (.errorOut 422 fieldRequiredMsg, 0) ∧
    (422 : Nat) ≠ 400 :=
  ⟨rfl, by decide⟩

/-- C7 amended: an empty city string is answered 400 with the message
"The city string is empty"; an absent city field is answered 422 with
the framework's missing-field message when output_format is absent or
valid; in both cases validation short-circuits the request and no
outbound attempt is made. -/
theorem C7_validation (env : UpstreamEnv) (ofm : Option String) :
    service { city := some "", output_format := ofm } env =
      (.errorOut 400 emptyCityMsg, 0) ∧
    ((ofm = none ∨ ∃ f, ofm = some f ∧
        (pyLower f = "json" ∨ pyLower f = "xml")) →
      service { city := none, output_format := ofm } env =
        (.errorOut 422 fieldRequiredMsg, 0)) ∧
    (service { city := none, output_format := ofm } env).2 = 0 := by
  refine ⟨rfl, ?_, ?_⟩
  · rintro (rfl | ⟨f, rfl, hf⟩)
    · rfl
    · unfold service validate
      simp [hf]
  · unfold service validate
    cases ofm with
    | none => rfl
    | some f =>
      dsimp only
      by_cases hf : pyLower f = "json" ∨ pyLower f = "xml" <;> simp [hf]

/-- C7 witness: both validation failures at concrete inputs. -/
theorem C7_witness :
    service { city := some "", output_format := some "json" } envParis =
      (.errorOut 400 emptyCityMsg, 0) ∧
    service { city := none, output_format := some "json" } envParis =
      (.errorOut 422 fieldRequiredMsg, 0) ∧
    (service { city := none, output_format := some "json" } envParis).2 = 0 :=
  ⟨(C7_validation envParis (some "json")).1,
   (C7_validation envParis (some "json")).2.1 (Or.inr ⟨"json", rfl, Or.inl rfl⟩),
   (C7_validation envParis (some "json")).2.2⟩

/-- C4 counterexample: with the location element missing from the
upstream XML document, the formatter raises AttributeError on the
city-match line, which is outside its try block; the exception
propagates and the request is answered 500, not 200. -/
theorem C4_counterexample :
    construct_response_xml "Paris" noLocX = .error "AttributeError" ∧
    service { city := some "Paris", output_format := some "xml" } envNoLocX =
      (.errorOut 500 internalServerError, 1) ∧
    (500 : Nat) ≠ 200 :=
  ⟨rfl, rfl, by decide⟩

/-- C4 amended: reading location/name text for the city comparison
happens outside the try block, so a missing location element, a missing
name child or an empty name text makes the formatter raise
AttributeError, failing the request with a 500; a name text that does
not match the requested city yields status 200 with every output field
serialising as the empty string; a missing current or current/temp_c
with a matching name yields status 200 with City already set to the
upstream name and the remaining fields empty. -/
theorem C4_xml_degradation (city nm : String) (env : UpstreamEnv)
    (hcity : city ≠ "") (hst : env.statuses 0 = 200) :
    (env.xmlBody.location = none →
      construct_response_xml city env.xmlBody = .error "AttributeError" ∧
      service { city := some city, output_format := some "xml" } env =
        (.errorOut 500 internalServerError, 1)) ∧
    (∀ loc, env.xmlBody.location = some loc → loc.name = none →
      construct_response_xml city env.xmlBody = .error "AttributeError" ∧
      service { city := some city, output_format := some "xml" } env =
        (.errorOut 500 internalServerError, 1)) ∧
    (∀ loc el, env.xmlBody.location = some loc → loc.name = some el →
      el.text = none →
      construct_response_xml city env.xmlBody = .error "AttributeError") ∧
    (∀ loc el, env.xmlBody.location = some loc → loc.name = some el →
      el.text = some nm → pyLower nm ≠ pyLower city →
      service { city := some city, output_format := some "xml" } env =
        (.xmlOut 200 mismatchOut, 1) ∧
      xmlChildren mismatchOut =
        [("Temperature", ""), ("City", ""), ("Latitude", ""),
         ("Longitude", "")]) ∧
    (∀ loc el, env.xmlBody.location = some loc → loc.name = some el →
      el.text = some nm → pyLower nm = pyLower city →
      lookupTempX env.xmlBody = none →
      service { city := some city, output_format := some "xml" } env =
        (.xmlOut 200 { Temperature := some "", City := some nm,
                       Latitude := some "", Longitude := some "" }, 1)) := by
  have hs := service_xml_200 city env hcity hst
  refine ⟨?_, ?_, ?_, ?_, ?_⟩
  · intro h
    have hfmt : construct_response_xml city env.xmlBody =
        .error "AttributeError" := by
      unfold construct_response_xml
      rw [h]
    exact ⟨hfmt, by rw [hs, hfmt]⟩
  · intro loc hl hn
    have hfmt : construct_response_xml city env.xmlBody =
        .error "AttributeError" := by
      unfold construct_response_xml
      rw [hl]
      dsimp only
      rw [hn]
    exact ⟨hfmt, by rw [hs, hfmt]⟩
  · intro loc el hl hn ht
    unfold construct_response_xml
    rw [hl]
    dsimp only
    rw [hn]
    dsimp only
    rw [ht]
  · intro loc el hl hn ht hne
    have hfmt : construct_response_xml city env.xmlBody =
        .ok (200, mismatchOut) := by
      unfold construct_response_xml
      rw [hl]
      dsimp only
      rw [hn]
      dsimp only
      rw [ht]
      dsimp only
      rw [if_neg hne]
      rfl
    refine ⟨by rw [hs, hfmt], ?_⟩
    simp [xmlChildren, mismatchOut, textContent]
  · intro loc el hl hn ht heq htemp
    have hfmt : construct_response_xml city env.xmlBody =
        .ok (200, { Temperature := some "", City := some nm,
                    Latitude := some "", Longitude := some "" }) := by
      unfold construct_response_xml
      rw [hl]
      dsimp only
      rw [hn]
      dsimp only
      rw [ht]
      dsimp only
      rw [if_pos heq]
      unfold lookupTempX at htemp
      cases hc : env.xmlBody.current with
      | none => simp [hc]
      | some cur =>
        rw [hc] at htemp
        simp at htemp
        simp [hc, htemp]
    rw [hs, hfmt]

/-- C4 witness: the missing-location case at a concrete input. -/
theorem C4_witness :
    ("Paris" : String) ≠ "" ∧ envNoLocX.statuses 0 = 200 ∧
    envNoLocX.xmlBody.location = none ∧
    (construct_response_xml "Paris" envNoLocX.xmlBody =
        .error "AttributeError" ∧
     service { city := some "Paris", output_format := some "xml" }
        envNoLocX = (.errorOut 500 internalServerError, 1)) :=
  ⟨by decide, rfl, rfl,
   (C4_xml_degradation "Paris" "x" envNoLocX (by decide) rfl).1 rfl⟩

/-- C8 counterexample: for the offending value YAML the 400 message
carries the lowercased value yaml; the original offending value YAML
does not occur in the message. -/
theorem C8_counterexample :
    service { city := some "Paris", output_format := some "YAML" } envParis =
      (.errorOut 400 (invalidFormatMsg "yaml"), 0) ∧
    ¬ List.IsInfix ("YAML" : String).data (invalidFormatMsg "yaml").data :=
  ⟨rfl, by decide⟩

/-- C8 amended: every output_format whose lowercasing is outside json
and xml is answered 400 with a message that contains the lowercased
offending value and both members of the allowed set. -/
theorem C8_invalid_format (city f : String) (env : UpstreamEnv)
    (hcity : city ≠ "")
    (hf : ¬ (pyLower f = "json" ∨ pyLower f = "xml")) :
    service { city := some city, output_format := some f } env =
      (.errorOut 400 (invalidFormatMsg (pyLower f)), 0) ∧
    List.IsInfix (pyLower f).data (invalidFormatMsg (pyLower f)).data ∧
    List.IsInfix ("json" : String).data (invalidFormatMsg (pyLower f)).data ∧
    List.IsInfix ("xml" : String).data (invalidFormatMsg (pyLower f)).data := by
  have hmsg : (invalidFormatMsg (pyLower f)).data =
      ("Invalid output format: '" : String).data ++ (pyLower f).data ++
        ("'. Only allowed formats are \x7b'json', 'xml'\x7d" : String).data := by
    simp [invalidFormatMsg, String.data_append]
  have hsuf : List.IsSuffix
      ("'. Only allowed formats are \x7b'json', 'xml'\x7d" : String).data
      (invalidFormatMsg (pyLower f)).data :=
    ⟨("Invalid output format: '" : String).data ++ (pyLower f).data, hmsg.symm⟩
  refine ⟨?_, ?_, ?_, ?_⟩
  · unfold service validate
    simp [hcity, hf]
  · exact ⟨("Invalid output format: '" : String).data,
      ("'. Only allowed formats are \x7b'json', 'xml'\x7d" : String).data,
      hmsg.symm⟩
  · exact List.IsInfix.trans (by decide) hsuf.isInfix
  · exact List.IsInfix.trans (by decide) hsuf.isInfix

/-- C8 witness: the YAML example. -/
theorem C8_witness :
    ("Paris" : String) ≠ "" ∧
    ¬ (pyLower "YAML" = "json" ∨ pyLower "YAML" = "xml") ∧
    service { city := some "Paris", output_format := some "YAML" } envParis =
      (.errorOut 400 (invalidFormatMsg (pyLower "YAML")), 0) ∧
    List.IsInfix (pyLower "YAML").data
      (invalidFormatMsg (pyLower "YAML")).data :=
  ⟨by decide, by decide,
   (C8_invalid_format "Paris" "YAML" envParis (by decide) (by decide)).1,
   (C8_invalid_format "Paris" "YAML" envParis (by decide) (by decide)).2.1⟩

end WeatherProxy
